import Mathlib

/-!
Verification of the booking domain logic of `voice_medical_agent.py`.

The source is a voice-agent demo whose domain core is three tool functions on
a `BookingAgent` class sharing two module-level globals:

  * `ACCEPTED_INSURERS = {"Aetna", "Blue Cross", "Cigna", "Medicare"}`
  * `BOOKINGS: list[dict]` (the booking ledger, append-only in practice)
  * `SLOTS = _default_slots()` (the slot catalog)

We embed the domain logic shallowly:

  * the slot catalog and the ledger become explicit parameters / state,
    since the Python functions read and mutate module globals;
  * `uuid.uuid4().hex[:8].upper()` (the confirmation-token source) becomes an
    explicit `token : String` parameter: the code uses the drawn token as-is,
    so a call is a deterministic function of the token drawn;
  * Python `datetime` values in `_default_slots` become naive local time
    measured in minutes since an arbitrary epoch (Python day arithmetic on
    naive datetimes is fixed 24-hour days);
  * dict payloads become plain Lean values: `{"accepted": b}` is `b`,
    `{"slots": l}` is `l`, and the result of `create_booking` is the
    inductive `CreateResult` below.
-/

/-- The accepted-insurer registry `ACCEPTED_INSURERS = {"Aetna", "Blue Cross", "Cigna", "Medicare"}`.
Python uses a set; only membership is ever consulted, so a list is a
faithful embedding. -/
def ACCEPTED_INSURERS : List String := ["Aetna", "Blue Cross", "Cigna", "Medicare"]

/-- Python `str.strip()` with no argument: remove leading and trailing
whitespace characters. (`Char.isWhitespace` covers space, tab, CR, LF,
which is what the repository ever feeds it.) -/
def pyStrip (s : String) : String :=
  String.mk (((s.data.dropWhile Char.isWhitespace).reverse.dropWhile Char.isWhitespace).reverse)

/-- Embeds `BookingAgent.check_insurance`: `insurer_name.strip() in ACCEPTED_INSURERS`.
The returned dict `{"accepted": accepted}` is embedded as the Bool itself. -/
def check_insurance (insurer_name : String) : Bool :=
  ACCEPTED_INSURERS.contains (pyStrip insurer_name)

/-- A catalog slot: `{"start_iso": ..., "duration_min": ...}`. -/
structure Slot where
  start_iso : String
  duration_min : Nat
deriving DecidableEq

/-- Python `s.startswith(d)` on the underlying character lists. -/
def startsWithChars : List Char → List Char → Bool
  | _, [] => true
  | [], _ :: _ => false
  | c :: cs, d :: ds => c == d && startsWithChars cs ds

/-- Python `s.startswith(d)` for strings. -/
def pyStartswith (s d : String) : Bool :=
  startsWithChars s.data d.data

/-- Lexicographic comparison of character lists; on fixed-format ISO-8601
timestamps this coincides with chronological order of the start times. -/
def leChars : List Char → List Char → Bool
  | [], _ => true
  | _ :: _, [] => false
  | a :: as, b :: bs => if a == b then leChars as bs else decide (a.toNat < b.toNat)

/-- String order used to state "ordered by start time ascending". -/
def strLe (a b : String) : Bool :=
  leChars a.data b.data

/-- Embeds `BookingAgent.get_slots`. `date_pref` is `Optional[str]`; Python
truthiness (`if date_pref:` and `if pref:`) makes both `None` and the empty
string fall through to `SLOTS[:6]`, and an empty filter result fall through
likewise. `s["start_iso"].startswith(date_pref)` is string-prefix matching. -/
def get_slots (slots : List Slot) (date_pref : Option String) : List Slot :=
  match date_pref with
  | some d =>
      if d = "" then slots.take 6
      else
        let pref := slots.filter (fun s => pyStartswith s.start_iso d)
        if pref.isEmpty then slots.take 6 else pref.take 3
  | none => slots.take 6

/-- A ledger entry, as appended by `create_booking`. -/
structure Booking where
  id : String
  name : String
  phone : String
  insurer : String
  reason : String
  slot_iso : String
deriving DecidableEq

/-- The `BOOKINGS` ledger. -/
abbrev Ledger := List Booking

/-- Result payload of `create_booking`: either
`{"error": msg}` or `{"confirmation_id": cid, "saved": saved}`. -/
inductive CreateResult where
  | err (error : String)
  | ok (confirmation_id : String) (saved : Bool)
deriving DecidableEq

/-- The set `{s["start_iso"] for s in SLOTS}` used for the membership check. -/
def slotStarts (slots : List Slot) : List String :=
  slots.map (fun s => s.start_iso)

/-- Embeds `BookingAgent.create_booking`, state-passing over the `BOOKINGS` ledger.
`token` is the value of `uuid.uuid4().hex[:8].upper()` drawn on this call.
The source validates only catalog membership of `slot_iso`; on success it
appends one entry and returns the confirmation. -/
def create_booking (slots : List Slot) (token : String)
    (name phone insurer reason slot_iso : String)
    (bookings : Ledger) : CreateResult × Ledger :=
  if slot_iso ∈ slotStarts slots then
    (CreateResult.ok token true,
     bookings ++ [⟨token, name, phone, insurer, reason, slot_iso⟩])
  else
    (CreateResult.err "slot_unavailable", bookings)

/-- Wraps `check_insurance` as a ledger transformer: the Python method body never
reads or writes `BOOKINGS`, so its state component is the identity. -/
def check_insurance_call (st : Ledger) (insurer_name : String) : Bool × Ledger :=
  (check_insurance insurer_name, st)

/-- Wraps `get_slots` as a ledger transformer: the Python method body never reads
or writes `BOOKINGS`, so its state component is the identity. -/
def get_slots_call (st : Ledger) (slots : List Slot) (date_pref : Option String) :
    List Slot × Ledger :=
  (get_slots slots date_pref, st)

/-- The fixed time-of-day table `daily = [(10, 0), (14, 30), (16, 0)]`. -/
def daily : List (Nat × Nat) := [(10, 0), (14, 30), (16, 0)]

/-- A slot of `_default_slots` before ISO formatting: start in minutes of
naive local time since an arbitrary epoch, plus the duration. -/
structure TimedSlot where
  start : Nat
  duration_min : Nat
deriving DecidableEq

/-- Embeds `_default_slots(n_days)`: for `d in range(n_days)`, take
`now + timedelta(days=d+1)` truncated to midnight
(`(now / 1440 + (d+1)) * 1440` in minutes) and emit one 20-minute slot per
entry of `daily` at `hh*60+mm` minutes past that midnight. `now` is
`datetime.now()` in minutes since the epoch of the naive local timeline. -/
def _default_slots (now : Nat) (n_days : Nat) : List TimedSlot :=
  (List.range n_days).flatMap (fun d =>
    daily.map (fun t => ⟨(now / 1440 + (d + 1)) * 1440 + (t.1 * 60 + t.2), 20⟩))

/-- A concrete two-slot catalog used for concrete runs. -/
def demoCat : List Slot :=
  [⟨"2025-06-11T10:00:00", 20⟩, ⟨"2025-06-11T14:30:00", 20⟩]

/-- A concrete catalog with slots on two dates, sorted ascending. -/
def sortedCat : List Slot :=
  [⟨"2025-06-10T10:00:00", 20⟩, ⟨"2025-06-10T14:30:00", 20⟩, ⟨"2025-06-11T10:00:00", 20⟩]

/-- Success equation for `create_booking`: whenever `slot_iso` is in the
catalog the call returns the confirmation built from the drawn token and
appends exactly one ledger entry, independently of the ledger contents. -/
theorem create_booking_of_mem (slots : List Slot) (token n p i r s : String)
    (st : Ledger) (h : s ∈ slotStarts slots) :
    create_booking slots token n p i r s st =
      (CreateResult.ok token true, st ++ [⟨token, n, p, i, r, s⟩]) := by
  simp [create_booking, h]

/-- Failure equation for `create_booking`: a `slot_iso` outside the catalog
yields the `slot_unavailable` payload and leaves the ledger untouched. -/
theorem create_booking_of_not_mem (slots : List Slot) (token n p i r s : String)
    (st : Ledger) (h : s ∉ slotStarts slots) :
    create_booking slots token n p i r s st =
      (CreateResult.err "slot_unavailable", st) := by
  simp [create_booking, h]

/-- C3: `check_insurance` returns accepted exactly when the trimmed input is
case-sensitively equal to a canonical registry entry; `" Cigna "` is
accepted, `"cigna"` is not, and every empty or whitespace-only name is
rejected. Totality on arbitrary strings is the totality of the Lean
function. -/
theorem check_insurance_exact_after_trim :
    (∀ name, check_insurance name = true ↔ ∃ e ∈ ACCEPTED_INSURERS, pyStrip name = e)
    ∧ check_insurance " Cigna " = true
    ∧ check_insurance "cigna" = false
    ∧ (∀ name, (∀ c ∈ name.data, c.isWhitespace = true) → check_insurance name = false) := by
  refine ⟨fun name => ?_, by decide, by decide, fun name h => ?_⟩
  · simp [check_insurance]
  · have hd : name.data.dropWhile Char.isWhitespace = [] :=
      List.dropWhile_eq_nil_iff.mpr h
    have hstrip : pyStrip name = "" := by
      simp [pyStrip, hd]
    rw [check_insurance, hstrip]
    decide

/-- Witness for C3 at concrete inputs: a name in the registry after trim is
accepted, and a whitespace-only name is rejected. -/
theorem check_insurance_exact_after_trim_witness :
    check_insurance " Blue Cross " = true ∧ check_insurance "   " = false :=
  ⟨(check_insurance_exact_after_trim.1 " Blue Cross ").mpr ⟨"Blue Cross", by decide, by decide⟩,
   check_insurance_exact_after_trim.2.2.2 "   " (by decide)⟩

/-- C1 counterexample: two successive `create_booking` calls against the same
`slotStart` both succeed, and the ledger then holds two entries with equal
`slot_iso` — the claimed at-most-one-booking-per-slot invariant fails. -/
theorem create_booking_duplicate_slot_counterexample :
    (create_booking demoCat "AAAA1111" "Ann" "555" "Cigna" "checkup"
        "2025-06-11T10:00:00" []).1 = CreateResult.ok "AAAA1111" true
    ∧ (create_booking demoCat "BBBB2222" "Bob" "666" "Aetna" "cough"
        "2025-06-11T10:00:00"
        (create_booking demoCat "AAAA1111" "Ann" "555" "Cigna" "checkup"
          "2025-06-11T10:00:00" []).2).1 = CreateResult.ok "BBBB2222" true
    ∧ ((create_booking demoCat "BBBB2222" "Bob" "666" "Aetna" "cough"
        "2025-06-11T10:00:00"
        (create_booking demoCat "AAAA1111" "Ann" "555" "Cigna" "checkup"
          "2025-06-11T10:00:00" []).2).2.countP
            (fun b => b.slot_iso == "2025-06-11T10:00:00")) = 2 := by
  decide

/-- C1 (amended): `create_booking` never consults the ledger, so a call for a
catalog slot succeeds even when some booking already references the same
`slotStart`, leaving at least two ledger entries with equal `slot_iso`;
every call for the same catalog slot succeeds, none fails. -/
theorem create_booking_no_slot_uniqueness (slots : List Slot)
    (tok n p i r s : String) (st : Ledger) (b : Booking)
    (hb : b ∈ st) (hbs : b.slot_iso = s) (h : s ∈ slotStarts slots) :
    (create_booking slots tok n p i r s st).1 = CreateResult.ok tok true
    ∧ 2 ≤ ((create_booking slots tok n p i r s st).2.countP
        (fun x => x.slot_iso == s)) := by
  rw [create_booking_of_mem slots tok n p i r s st h]
  refine ⟨rfl, ?_⟩
  rw [List.countP_append]
  have h1 : 1 ≤ st.countP (fun x => x.slot_iso == s) := by
    exact List.countP_pos_iff.mpr ⟨b, hb, by simp [hbs]⟩
  have h2 : ([(⟨tok, n, p, i, r, s⟩ : Booking)].countP
      (fun x => x.slot_iso == s)) = 1 := by
    simp [List.countP_cons]
  omega

/-- Witness for C1 (amended): a second booking against an already-claimed
slot succeeds and the ledger counts two entries for that slot. -/
theorem create_booking_no_slot_uniqueness_witness :
    (create_booking demoCat "BBBB2222" "Bob" "666" "Aetna" "cough"
        "2025-06-11T10:00:00"
        [⟨"AAAA1111", "Ann", "555", "Cigna", "checkup", "2025-06-11T10:00:00"⟩]).1
      = CreateResult.ok "BBBB2222" true
    ∧ 2 ≤ ((create_booking demoCat "BBBB2222" "Bob" "666" "Aetna" "cough"
        "2025-06-11T10:00:00"
        [⟨"AAAA1111", "Ann", "555", "Cigna", "checkup", "2025-06-11T10:00:00"⟩]).2.countP
          (fun x => x.slot_iso == "2025-06-11T10:00:00")) :=
  create_booking_no_slot_uniqueness demoCat "BBBB2222" "Bob" "666" "Aetna" "cough"
    "2025-06-11T10:00:00"
    [⟨"AAAA1111", "Ann", "555", "Cigna", "checkup", "2025-06-11T10:00:00"⟩]
    ⟨"AAAA1111", "Ann", "555", "Cigna", "checkup", "2025-06-11T10:00:00"⟩
    (by decide) (by decide) (by decide)

/-- C2 counterexample: with a slot that is in the catalog but already claimed
by a ledger entry, `create_booking` does not return the error payload the
claim requires — it succeeds. -/
theorem create_booking_err_iff_counterexample :
    ((⟨"AAAA1111", "Ann", "555", "Cigna", "checkup", "2025-06-11T10:00:00"⟩ : Booking).slot_iso
        = "2025-06-11T10:00:00")
    ∧ (create_booking demoCat "BBBB2222" "Bob" "666" "Aetna" "cough"
        "2025-06-11T10:00:00"
        [⟨"AAAA1111", "Ann", "555", "Cigna", "checkup", "2025-06-11T10:00:00"⟩]).1
      ≠ CreateResult.err "slot_unavailable" := by
  decide

/-- C2 (amended): `create_booking` returns the `slot_unavailable` error
payload exactly when `slot_iso` is not in the catalog; whenever it is in the
catalog the call returns the confirmation and `saved = true`, whether or not
a ledger entry already references the slot. -/
theorem create_booking_err_iff (slots : List Slot) (tok n p i r s : String)
    (st : Ledger) :
    ((create_booking slots tok n p i r s st).1 = CreateResult.err "slot_unavailable"
      ↔ s ∉ slotStarts slots)
    ∧ (s ∈ slotStarts slots →
        (create_booking slots tok n p i r s st).1 = CreateResult.ok tok true) := by
  by_cases h : s ∈ slotStarts slots
  · rw [create_booking_of_mem slots tok n p i r s st h]
    simp [h]
  · rw [create_booking_of_not_mem slots tok n p i r s st h]
    simp [h]

/-- Witness for C2 (amended): a catalog slot is accepted, an unknown slot is
rejected with the error payload. -/
theorem create_booking_err_iff_witness :
    (create_booking demoCat "CCCC3333" "Cara" "777" "Cigna" "flu"
        "2025-06-11T14:30:00" []).1 = CreateResult.ok "CCCC3333" true
    ∧ (create_booking demoCat "DDDD4444" "Dan" "111" "Cigna" "flu"
        "2030-01-01T09:00:00" []).1 = CreateResult.err "slot_unavailable" :=
  ⟨(create_booking_err_iff demoCat "CCCC3333" "Cara" "777" "Cigna" "flu"
      "2025-06-11T14:30:00" []).2 (by decide),
   (create_booking_err_iff demoCat "DDDD4444" "Dan" "111" "Cigna" "flu"
      "2030-01-01T09:00:00" []).1.mpr (by decide)⟩

/-- C6 counterexample: if the token source yields the same token on two
successful calls, both bookings are stored with that confirmation id — the
ledger ends with two entries whose ids are equal, with no rejection or
retry. -/
theorem confirmation_id_unique_counterexample :
    (create_booking demoCat "DUPTOK00" "Ann" "555" "Cigna" "checkup"
        "2025-06-11T10:00:00" []).1 = CreateResult.ok "DUPTOK00" true
    ∧ (create_booking demoCat "DUPTOK00" "Bob" "666" "Aetna" "cough"
        "2025-06-11T14:30:00"
        (create_booking demoCat "DUPTOK00" "Ann" "555" "Cigna" "checkup"
          "2025-06-11T10:00:00" []).2).1 = CreateResult.ok "DUPTOK00" true
    ∧ ((create_booking demoCat "DUPTOK00" "Bob" "666" "Aetna" "cough"
        "2025-06-11T14:30:00"
        (create_booking demoCat "DUPTOK00" "Ann" "555" "Cigna" "checkup"
          "2025-06-11T10:00:00" []).2).2.countP
            (fun b => b.id == "DUPTOK00")) = 2 := by
  decide

/-- C6 (amended): the stored confirmation id is exactly the token drawn from
the random source, and the ledger performs no collision check: a successful
call whose token already appears as the id of a ledger entry still succeeds
and appends, leaving at least two entries with equal ids. -/
theorem create_booking_no_id_collision_check (slots : List Slot)
    (tok n p i r s : String) (st : Ledger) (b : Booking)
    (hb : b ∈ st) (hid : b.id = tok) (h : s ∈ slotStarts slots) :
    (create_booking slots tok n p i r s st).1 = CreateResult.ok tok true
    ∧ 2 ≤ ((create_booking slots tok n p i r s st).2.countP
        (fun x => x.id == tok)) := by
  rw [create_booking_of_mem slots tok n p i r s st h]
  refine ⟨rfl, ?_⟩
  rw [List.countP_append]
  have h1 : 1 ≤ st.countP (fun x => x.id == tok) := by
    exact List.countP_pos_iff.mpr ⟨b, hb, by simp [hid]⟩
  have h2 : ([(⟨tok, n, p, i, r, s⟩ : Booking)].countP
      (fun x => x.id == tok)) = 1 := by
    simp [List.countP_cons]
  omega

/-- Witness for C6 (amended): a ledger already holding id `DUPTOK00` accepts
a second booking under the same token. -/
theorem create_booking_no_id_collision_check_witness :
    (create_booking demoCat "DUPTOK00" "Bob" "666" "Aetna" "cough"
        "2025-06-11T14:30:00"
        [⟨"DUPTOK00", "Ann", "555", "Cigna", "checkup", "2025-06-11T10:00:00"⟩]).1
      = CreateResult.ok "DUPTOK00" true
    ∧ 2 ≤ ((create_booking demoCat "DUPTOK00" "Bob" "666" "Aetna" "cough"
        "2025-06-11T14:30:00"
        [⟨"DUPTOK00", "Ann", "555", "Cigna", "checkup", "2025-06-11T10:00:00"⟩]).2.countP
          (fun x => x.id == "DUPTOK00")) :=
  create_booking_no_id_collision_check demoCat "DUPTOK00" "Bob" "666" "Aetna" "cough"
    "2025-06-11T14:30:00"
    [⟨"DUPTOK00", "Ann", "555", "Cigna", "checkup", "2025-06-11T10:00:00"⟩]
    ⟨"DUPTOK00", "Ann", "555", "Cigna", "checkup", "2025-06-11T10:00:00"⟩
    (by decide) (by decide) (by decide)

/-- C9 counterexample: `create_booking` with an empty `reason` and a catalog
slot succeeds and stores a booking whose reason is the empty string — the
claimed non-empty validation does not exist. -/
theorem reason_nonempty_counterexample :
    create_booking demoCat "EEEE5555" "Eve" "888" "Cigna" "" "2025-06-11T10:00:00" []
      = (CreateResult.ok "EEEE5555" true,
         [⟨"EEEE5555", "Eve", "888", "Cigna", "", "2025-06-11T10:00:00"⟩]) := by
  decide

/-- C9 (amended): the reason field is not validated at all: a call with an
empty reason behaves exactly like any other call, succeeding whenever the
slot is in the catalog and storing the empty reason verbatim. -/
theorem create_booking_empty_reason_accepted (slots : List Slot)
    (tok n p i s : String) (st : Ledger) (h : s ∈ slotStarts slots) :
    create_booking slots tok n p i "" s st =
      (CreateResult.ok tok true, st ++ [⟨tok, n, p, i, "", s⟩]) :=
  create_booking_of_mem slots tok n p i "" s st h

/-- Witness for C9 (amended) at a concrete catalog slot. -/
theorem create_booking_empty_reason_accepted_witness :
    create_booking demoCat "FFFF6666" "Fay" "999" "Cigna" "" "2025-06-11T14:30:00" []
      = (CreateResult.ok "FFFF6666" true,
         [⟨"FFFF6666", "Fay", "999", "Cigna", "", "2025-06-11T14:30:00"⟩]) :=
  create_booking_empty_reason_accepted demoCat "FFFF6666" "Fay" "999" "Cigna"
    "2025-06-11T14:30:00" [] (by decide)

/-- C7: no operation mutates or deletes an existing booking. The read
operations leave the ledger untouched; `create_booking` only ever appends,
every prior entry survives unchanged, and on any error payload the ledger is
exactly the pre-call ledger. -/
theorem ops_preserve_ledger (st : Ledger) (slots : List Slot)
    (insurer_name : String) (d : Option String) (tok n p i r s : String) :
    (check_insurance_call st insurer_name).2 = st
    ∧ (get_slots_call st slots d).2 = st
    ∧ (∃ rest, (create_booking slots tok n p i r s st).2 = st ++ rest)
    ∧ (∀ b ∈ st, b ∈ (create_booking slots tok n p i r s st).2)
    ∧ (∀ e, (create_booking slots tok n p i r s st).1 = CreateResult.err e →
        (create_booking slots tok n p i r s st).2 = st) := by
  refine ⟨rfl, rfl, ?_, ?_, ?_⟩
  · by_cases h : s ∈ slotStarts slots
    · exact ⟨[⟨tok, n, p, i, r, s⟩], by rw [create_booking_of_mem slots tok n p i r s st h]⟩
    · exact ⟨[], by rw [create_booking_of_not_mem slots tok n p i r s st h]; simp⟩
  · intro b hb
    by_cases h : s ∈ slotStarts slots
    · rw [create_booking_of_mem slots tok n p i r s st h]
      exact List.mem_append_left _ hb
    · rw [create_booking_of_not_mem slots tok n p i r s st h]
      exact hb
  · intro e he
    by_cases h : s ∈ slotStarts slots
    · rw [create_booking_of_mem slots tok n p i r s st h] at he
      exact absurd he (by simp)
    · rw [create_booking_of_not_mem slots tok n p i r s st h]

/-- Witness for C7: on a concrete failing call the prior entry is still in
the ledger and the ledger is unchanged. -/
theorem ops_preserve_ledger_witness :
    (⟨"AAAA1111", "Ann", "555", "Cigna", "checkup", "2025-06-11T10:00:00"⟩ : Booking)
      ∈ (create_booking demoCat "GGGG7777" "Gil" "222" "Cigna" "flu"
          "2030-01-01T09:00:00"
          [⟨"AAAA1111", "Ann", "555", "Cigna", "checkup", "2025-06-11T10:00:00"⟩]).2
    ∧ (create_booking demoCat "GGGG7777" "Gil" "222" "Cigna" "flu"
        "2030-01-01T09:00:00"
        [⟨"AAAA1111", "Ann", "555", "Cigna", "checkup", "2025-06-11T10:00:00"⟩]).2
      = [⟨"AAAA1111", "Ann", "555", "Cigna", "checkup", "2025-06-11T10:00:00"⟩] :=
  ⟨(ops_preserve_ledger
      [⟨"AAAA1111", "Ann", "555", "Cigna", "checkup", "2025-06-11T10:00:00"⟩]
      demoCat "Cigna" none "GGGG7777" "Gil" "222" "Cigna" "flu"
      "2030-01-01T09:00:00").2.2.2.1 _ (by decide),
   (ops_preserve_ledger
      [⟨"AAAA1111", "Ann", "555", "Cigna", "checkup", "2025-06-11T10:00:00"⟩]
      demoCat "Cigna" none "GGGG7777" "Gil" "222" "Cigna" "flu"
      "2030-01-01T09:00:00").2.2.2.2 "slot_unavailable" (by decide)⟩

/-- Inclusion of every `get_slots` result in the catalog: each branch is a
`take` of the catalog or of a filtering of it. -/
theorem get_slots_subset (slots : List Slot) (d : Option String) :
    get_slots slots d ⊆ slots := by
  have htake6 : slots.take 6 ⊆ slots := (List.take_sublist 6 slots).subset
  match d with
  | none => exact htake6
  | some dp =>
      simp only [get_slots]
      split
      · exact htake6
      · split
        · exact htake6
        · exact ((List.take_sublist 3 _).trans (List.filter_sublist slots)).subset

/-- C8: any slot returned by `get_slots` is in the catalog, so a subsequent
`create_booking` against its start succeeds; the unclaimed-slot hypothesis of
the claim is recorded even though the code does not need it. -/
theorem get_slots_then_create_booking_succeeds (slots : List Slot)
    (d : Option String) (st : Ledger) (tok n p i r : String) (s : Slot)
    (hs : s ∈ get_slots slots d)
    (_hfree : ∀ b ∈ st, b.slot_iso ≠ s.start_iso) :
    (create_booking slots tok n p i r s.start_iso st).1
      = CreateResult.ok tok true := by
  have hmem : s.start_iso ∈ slotStarts slots :=
    List.mem_map_of_mem _ (get_slots_subset slots d hs)
  rw [create_booking_of_mem slots tok n p i r s.start_iso st hmem]

/-- Witness for C8: booking the first slot listed by `get_slots` on the demo
catalog with an empty ledger succeeds. -/
theorem get_slots_then_create_booking_succeeds_witness :
    (create_booking demoCat "HHHH8888" "Hal" "333" "Cigna" "flu"
        (⟨"2025-06-11T10:00:00", 20⟩ : Slot).start_iso []).1
      = CreateResult.ok "HHHH8888" true :=
  get_slots_then_create_booking_succeeds demoCat none [] "HHHH8888" "Hal" "333"
    "Cigna" "flu" ⟨"2025-06-11T10:00:00", 20⟩ (by decide)
    (by intro b hb; exact absurd hb (by simp))

/-- C5: `_default_slots` is a deterministic function of the reference now and
the fixed table `daily`: it yields `n_days * 3` slots of duration 20, each
starting at 10:00, 14:30 or 16:00 local time on a day strictly after the
generation day (tomorrow at the earliest, within the window), hence each
start is strictly in the future relative to the generation time. -/
theorem default_slots_spec (now n_days : Nat) :
    (_default_slots now n_days).length = n_days * 3
    ∧ (∀ s ∈ _default_slots now n_days,
        s.duration_min = 20
        ∧ (s.start % 1440 = 10 * 60 ∨ s.start % 1440 = 14 * 60 + 30
            ∨ s.start % 1440 = 16 * 60)
        ∧ now / 1440 < s.start / 1440
        ∧ s.start / 1440 ≤ now / 1440 + n_days
        ∧ now < s.start) := by
  constructor
  · induction n_days with
    | zero => rfl
    | succ k ih =>
        simp only [_default_slots] at ih ⊢
        rw [List.range_succ, List.flatMap_append, List.length_append, ih]
        simp [daily]
        omega
  · intro s hs
    simp only [_default_slots, List.mem_flatMap] at hs
    obtain ⟨d, hd, hs⟩ := hs
    rw [List.mem_range] at hd
    simp only [daily, List.mem_map, List.mem_cons,
      List.not_mem_nil, or_false] at hs
    obtain ⟨t, ht, rfl⟩ := hs
    rcases ht with rfl | rfl | rfl <;>
      (dsimp only) <;>
      refine ⟨rfl, ?_, ?_, ?_, ?_⟩ <;> omega

/-- Witness for C5: the two-day window generated at reference time 777 has
six slots, and its 10:00-tomorrow slot starts strictly after 777. -/
theorem default_slots_spec_witness :
    (_default_slots 777 2).length = 2 * 3
    ∧ (777 : Nat) < (⟨2040, 20⟩ : TimedSlot).start :=
  ⟨(default_slots_spec 777 2).1,
   ((default_slots_spec 777 2).2 ⟨2040, 20⟩ (by decide)).2.2.2.2⟩

/-- Unfolding of the date-preference branch of `get_slots` for a non-empty
preference string. -/
theorem get_slots_some_eq (slots : List Slot) (d : String) (hd : d ≠ "") :
    get_slots slots (some d)
      = (if (slots.filter (fun s => pyStartswith s.start_iso d)).isEmpty
          then slots.take 6
          else (slots.filter (fun s => pyStartswith s.start_iso d)).take 3) := by
  simp only [get_slots, if_neg hd]

/-- C4: on a catalog ordered ascending by start (as every generated catalog
is), a given date preference with at least one matching slot yields the
first at-most-3 matching slots in ascending order; with no preference, or a
preference matching nothing, the result is the first at-most-6 catalog slots
in ascending order; an empty catalog always yields the empty list, and every
case returns a value (the operation never errors). -/
theorem get_slots_query_ordered (slots : List Slot)
    (hsort : slots.Pairwise (fun a b => strLe a.start_iso b.start_iso = true)) :
    (∀ d, d ≠ "" →
      slots.filter (fun s => pyStartswith s.start_iso d) ≠ [] →
        get_slots slots (some d)
            = (slots.filter (fun s => pyStartswith s.start_iso d)).take 3
        ∧ (get_slots slots (some d)).length ≤ 3
        ∧ (∀ s ∈ get_slots slots (some d), pyStartswith s.start_iso d = true)
        ∧ (get_slots slots (some d)).Pairwise
            (fun a b => strLe a.start_iso b.start_iso = true))
    ∧ (∀ d, d ≠ "" →
        slots.filter (fun s => pyStartswith s.start_iso d) = [] →
          get_slots slots (some d) = slots.take 6)
    ∧ (get_slots slots none = slots.take 6
        ∧ (get_slots slots none).length ≤ 6
        ∧ (get_slots slots none).Pairwise
            (fun a b => strLe a.start_iso b.start_iso = true))
    ∧ (slots = [] → ∀ o, get_slots slots o = []) := by
  refine ⟨?_, ?_, ⟨rfl, ?_, ?_⟩, ?_⟩
  · intro d hd hne
    have hemp : (slots.filter (fun s => pyStartswith s.start_iso d)).isEmpty = false := by
      simp [List.isEmpty_iff, hne]
    have heq : get_slots slots (some d)
        = (slots.filter (fun s => pyStartswith s.start_iso d)).take 3 := by
      rw [get_slots_some_eq slots d hd, hemp]
      simp
    refine ⟨heq, ?_, ?_, ?_⟩
    · rw [heq]; exact List.length_take_le 3 _
    · intro s hs
      rw [heq] at hs
      exact (List.mem_filter.mp ((List.take_sublist 3 _).subset hs)).2
    · rw [heq]
      exact List.Pairwise.sublist
        ((List.take_sublist 3 _).trans (List.filter_sublist _)) hsort
  · intro d hd hemp
    rw [get_slots_some_eq slots d hd, hemp]
    simp
  · exact List.length_take_le 6 _
  · exact List.Pairwise.sublist (List.take_sublist 6 _) hsort
  · rintro rfl o
    rcases o with _ | d
    · rfl
    · simp [get_slots]

/-- Witness for C4: on a sorted catalog with slots on 2025-06-10 and
2025-06-11, a 2025-06-10 preference returns exactly the two 2025-06-10
slots, ascending. -/
theorem get_slots_query_ordered_witness :
    get_slots sortedCat (some "2025-06-10")
      = [⟨"2025-06-10T10:00:00", 20⟩, ⟨"2025-06-10T14:30:00", 20⟩] := by
  rw [((get_slots_query_ordered sortedCat (by decide)).1 "2025-06-10"
    (by decide) (by decide)).1]
  decide

/-- C10 counterexample: for the non-empty preference "1999" no catalog slot
matches, and `get_slots` does not return the (empty) filtered list — it
falls back to the unfiltered up-to-6 list, refuting the claim that every
non-empty preference yields the first up-to-3 matching slots. -/
theorem get_slots_matching_shape_counterexample :
    get_slots demoCat (some "1999")
      ≠ (demoCat.filter (fun s => pyStartswith s.start_iso "1999")).take 3 := by
  decide

/-- C10 (amended): date-preference matching is string-startswith on the ISO
start, so a bare year or month also selects slots; a non-empty preference
with at least one match yields the first up-to-3 matching slots, a non-empty
preference with no match falls back to the unfiltered up-to-6 list, and the
empty-string preference is treated as no preference. -/
theorem get_slots_pref_matching_is_startswith (slots : List Slot) (d : String)
    (hd : d ≠ "") :
    (slots.filter (fun s => pyStartswith s.start_iso d) ≠ [] →
        get_slots slots (some d)
          = (slots.filter (fun s => pyStartswith s.start_iso d)).take 3)
    ∧ (slots.filter (fun s => pyStartswith s.start_iso d) = [] →
        get_slots slots (some d) = slots.take 6)
    ∧ get_slots slots (some "") = slots.take 6
    ∧ get_slots slots (some "") = get_slots slots none := by
  refine ⟨?_, ?_, rfl, rfl⟩
  · intro hne
    have hemp : (slots.filter (fun s => pyStartswith s.start_iso d)).isEmpty = false := by
      simp [List.isEmpty_iff, hne]
    rw [get_slots_some_eq slots d hd, hemp]
    simp
  · intro hemp
    rw [get_slots_some_eq slots d hd, hemp]
    simp

/-- Witness for C10 (amended): the bare-year preference "2025" selects the
first three slots of the sorted catalog via startswith matching. -/
theorem get_slots_pref_matching_is_startswith_witness :
    get_slots sortedCat (some "2025")
      = [⟨"2025-06-10T10:00:00", 20⟩, ⟨"2025-06-10T14:30:00", 20⟩,
         ⟨"2025-06-11T10:00:00", 20⟩] := by
  rw [(get_slots_pref_matching_is_startswith sortedCat "2025" (by decide)).1 (by decide)]
  decide
